import Mathlib

/-!
# Portfolio backend: authentication gate and route wiring

A shallow embedding of `backend/server.js`, `backend/middleware/validation.js`
and `backend/routes/Projects.js`.

* JavaScript strings are sequences of UTF-16 code units, the unit in which
  `length`, `trim` and `split` count; they are embedded as `List Nat`.
* Calls into third-party packages (`jsonwebtoken`, `bcryptjs`, the MongoDB
  driver) are answered by an explicit environment, so that a thrown error is
  an ordinary value (`Except`) and every `catch` branch of the source is
  reachable in the embedding.
* A middleware or handler returns the record of what it did: the responses it
  sent, how often it called `next`, the library calls it made, `req.user`.
-/

namespace Portfolio

/-! ## JavaScript strings -/

/-- A JavaScript string: its UTF-16 code units. -/
abbrev JsString := List Nat

/-- UTF-16 code units of one Unicode scalar value. -/
def utf16 (c : Char) : List Nat :=
  if c.toNat < 0x10000 then [c.toNat]
  else [0xD800 + (c.toNat - 0x10000) / 0x400, 0xDC00 + (c.toNat - 0x10000) % 0x400]

/-- The JavaScript string written by a string literal. -/
def js (s : String) : JsString :=
  s.toList.flatMap utf16

/-- ECMAScript `WhiteSpace` and `LineTerminator` code units: what
`String.prototype.trim` strips and the regular expression class `\s` matches. -/
def isJsSpace (c : Nat) : Bool :=
  c == 0x09 || c == 0x0A || c == 0x0B || c == 0x0C || c == 0x0D || c == 0x20 ||
  c == 0xA0 || c == 0x1680 || (0x2000 ≤ c && c ≤ 0x200A) || c == 0x2028 ||
  c == 0x2029 || c == 0x202F || c == 0x205F || c == 0x3000 || c == 0xFEFF

/-- The call `s.trim()`: white space removed at both ends. -/
def jsTrim (s : JsString) : JsString :=
  ((s.dropWhile isJsSpace).reverse.dropWhile isJsSpace).reverse

/-- The call `s.split(sep)` for a one-code-unit separator: the pieces between
consecutive separators, empty pieces kept. -/
def jsSplit (sep : Nat) : JsString → List JsString
  | [] => [[]]
  | c :: cs =>
    if c = sep then [] :: jsSplit sep cs
    else
      match jsSplit sep cs with
      | [] => [[c]]
      | p :: ps => (c :: p) :: ps

/-- The test `!s` for a value that is a string or `undefined`: true for `undefined`
and for the empty string. -/
def falsy : Option JsString → Bool
  | none => true
  | some s => s.isEmpty

/-! ## HTTP responses -/

/-- A MongoDB `ObjectId`, kept as the 24-digit hexadecimal string that
`toString()` prints. -/
structure ObjectId where
  hex : JsString
deriving DecidableEq, Repr

/-- A stored value of a document field. -/
inductive Value
  | str (s : JsString)
  | oid (o : ObjectId)
  | date (seconds : Nat)
deriving DecidableEq, Repr

/-- A flat JSON object: `req.body`, or a stored document. -/
abbrev Fields := List (String × Value)

/-- JSON bodies the handlers pass to `res.json`. -/
inductive Body
  | error (msg : String)
  | message (msg : String)
  | messageToken (msg : String) (token : JsString)
  | messageId (msg : String) (id : ObjectId)
  | document (d : Fields)
  | documents (ds : List Fields)
  | file (path : String)
deriving DecidableEq, Repr

/-- Top-level keys of a JSON body (none for an array). -/
def Body.keys : Body → List String
  | .error _ => ["error"]
  | .message _ => ["message"]
  | .messageToken _ _ => ["message", "token"]
  | .messageId _ _ => ["message", "id"]
  | .document d => d.map Prod.fst
  | .documents _ => []
  | .file _ => []

/-- One response sent with `res.status(code).json(body)`; `res.json(body)`
alone sends status 200. -/
structure Response where
  status : Nat
  body : Body
deriving DecidableEq, Repr

/-- A thrown JavaScript error, kept as its message. -/
abbrev Thrown := String

/-! ## The `jsonwebtoken` package -/

/-- The payload `jwt.verify` returns for a token signed by the login handler:
the `id` claim and the registered claims `iat` and `exp` (seconds). -/
structure Claims where
  id : JsString
  iat : Nat
  exp : Nat
deriving DecidableEq, Repr

/-- The `jsonwebtoken` package: `sign(payload, secret, { expiresIn })` and
`verify(token, secret)`. Both read the clock in whole seconds
(`Math.floor(Date.now() / 1000)`), passed here as the last argument. `sign`
takes the `id` of the payload and the lifetime in seconds; `verify` takes
whatever `authHeader.split(" ")[1]` evaluates to, `undefined` included, and
either returns the decoded payload or throws. `sign` does not throw on a
non-empty secret, and server.js exits at start-up when `JWT_SECRET` is unset. -/
structure JwtLib where
  sign : JsString → JsString → Nat → Nat → JsString
  verify : Option JsString → JsString → Nat → Except Thrown Claims

/-- Seconds denoted by the `expiresIn` value `"2h"`. -/
def expiresIn2h : Nat := 2 * 60 * 60

/-- The documented contract of `jsonwebtoken` for tokens it signed itself: a
token is a compact serialisation without blanks, and verifying it under the
signing secret returns the signed payload with `iat` and `exp = iat + lifetime`
while the clock reads less than `exp`, and throws from `exp` on. -/
structure JwtLib.Sound (lib : JwtLib) : Prop where
  no_blank : ∀ id secret ttl issued, 0x20 ∉ lib.sign id secret ttl issued
  live : ∀ id secret ttl issued clock, clock < issued + ttl →
    lib.verify (some (lib.sign id secret ttl issued)) secret clock =
      .ok { id := id, iat := issued, exp := issued + ttl }
  expired : ∀ id secret ttl issued clock, issued + ttl ≤ clock →
    ∃ e, lib.verify (some (lib.sign id secret ttl issued)) secret clock = .error e

/-! ## `verifyToken` (server.js) -/

/-- The value of `authHeader.split(" ")[1]`: the second blank-separated piece of
the header, `undefined` when there is none. -/
def tokenSegment (authHeader : Option JsString) : Option JsString :=
  authHeader.bind fun h => (jsSplit 0x20 h)[1]?

/-- What one run of `verifyToken` did. -/
structure GateRun where
  responses : List Response
  nextCalls : Nat
  verifyCalls : List (Option JsString)
  user : Option Claims
deriving DecidableEq, Repr

/-- The middleware `verifyToken(req, res, next)` of server.js, run on
`req.headers.authorization` with `JWT_SECRET` and the clock of the request. -/
def verifyToken (lib : JwtLib) (secret : JsString) (clock : Nat)
    (authHeader : Option JsString) : GateRun :=
  if falsy authHeader then
    { responses := [⟨401, .error "Access denied. No token."⟩]
      nextCalls := 0, verifyCalls := [], user := none }
  else
    let token := tokenSegment authHeader
    match lib.verify token secret clock with
    | .ok verified =>
      { responses := [], nextCalls := 1, verifyCalls := [token], user := some verified }
    | .error _ =>
      { responses := [⟨403, .error "Invalid or expired token"⟩]
        nextCalls := 0, verifyCalls := [token], user := none }

/-- The gate let the request through: `next` was called once, nothing was
sent, and `req.user.id` is `id`. -/
def GateRun.Passed (run : GateRun) (id : JsString) : Prop :=
  run.nextCalls = 1 ∧ run.responses = [] ∧ run.user.map Claims.id = some id

/-- The gate ended the request with 403 and `{error: "Invalid or expired token"}`. -/
def GateRun.Rejected (run : GateRun) : Prop :=
  run.responses = [⟨403, .error "Invalid or expired token"⟩] ∧ run.nextCalls = 0
    ∧ run.user = none

/-! ## `validateAuth` (middleware/validation.js) -/

/-- What one run of a validation middleware did. -/
structure CheckRun where
  responses : List Response
  nextCalls : Nat
deriving DecidableEq, Repr

/-- The middleware `validateAuth(req, res, next)`, run on the `username` and
`password` properties of `req.body` (a string each, or `undefined`). -/
def validateAuth (username password : Option JsString) : CheckRun :=
  if falsy username || decide ((jsTrim (username.getD [])).length < 3) then
    { responses := [⟨400, .error "Username must be at least 3 characters"⟩], nextCalls := 0 }
  else if falsy password || decide ((password.getD []).length < 4) then
    { responses := [⟨400, .error "Password must be at least 4 characters"⟩], nextCalls := 0 }
  else
    { responses := [], nextCalls := 1 }

/-- The username, with leading and trailing white space removed, has at least
3 code units (an absent username has none). -/
def UsernameOk (username : Option JsString) : Prop :=
  ∃ u, username = some u ∧ 3 ≤ (jsTrim u).length

/-- The password, as sent, has at least 4 code units. -/
def PasswordOk (password : Option JsString) : Prop :=
  ∃ p, password = some p ∧ 4 ≤ p.length

/-! ## The account store and the `bcryptjs` package -/

/-- A document of the `users` collection. `username` is whatever the
registration request carried (`undefined` is stored as `null`); `password`
holds the bcrypt hash. -/
structure User where
  _id : ObjectId
  username : Option JsString
  password : JsString
deriving DecidableEq, Repr

/-- The call `_id.toString()`. -/
def ObjectId.toString (o : ObjectId) : JsString := o.hex

/-- Everything outside the process that one request to an authentication
route consults. `hash` and `compare` are `bcrypt.hash(s, 10)` (with the salt
the library draws for this call) and `bcrypt.compare(s, hash)` on strings;
`findOneError` and `insertOneError` are the error, if any, with which the
driver rejects the call on the `users` collection; `newId` is the `_id` the
driver generates for an inserted document; `secret` is `JWT_SECRET`, which
server.js refuses to start without. -/
structure AuthEnv where
  lib : JwtLib
  secret : JsString
  clock : Nat
  hash : JsString → JsString
  compare : JsString → JsString → Bool
  findOneError : Option Thrown
  insertOneError : Option Thrown
  newId : ObjectId

/-- The call `usersCollection.findOne({ username })`: the first stored document
whose `username` equals the argument exactly. -/
def usersFindOne (env : AuthEnv) (users : List User) (username : Option JsString) :
    Except Thrown (Option User) :=
  match env.findOneError with
  | some e => .error e
  | none => .ok (users.find? fun u => u.username == username)

/-- The call `usersCollection.insertOne({ username, password })`: the driver adds
a fresh `_id`; the server rejects a duplicate `_id` and enforces no other
uniqueness. -/
def usersInsertOne (env : AuthEnv) (users : List User) (username : Option JsString)
    (password : JsString) : Except Thrown (List User) :=
  match env.insertOneError with
  | some e => .error e
  | none =>
    if users.any fun u => u._id == env.newId then .error "E11000 duplicate key error"
    else .ok (users ++ [{ _id := env.newId, username := username, password := password }])

/-- The call `bcrypt.hash(password, 10)`: rejects an argument that is not a string. -/
def bcryptHash (env : AuthEnv) : Option JsString → Except Thrown JsString
  | none => .error "Illegal arguments: undefined, number"
  | some s => .ok (env.hash s)

/-- The call `bcrypt.compare(password, hash)`: rejects an argument that is not a string. -/
def bcryptCompare (env : AuthEnv) (password : Option JsString) (hash : JsString) :
    Except Thrown Bool :=
  match password with
  | none => .error "Illegal arguments: undefined, string"
  | some s => .ok (env.compare s hash)

/-- What one run of an authentication handler did: the responses sent, the
`users` collection afterwards, and the arguments of its `bcrypt.hash` calls. -/
structure AuthRun where
  responses : List Response
  users : List User
  hashCalls : List (Option JsString)
deriving DecidableEq, Repr

/-- The handler of `POST /api/auth/register`. -/
def register (env : AuthEnv) (users : List User) (username password : Option JsString) :
    AuthRun :=
  match usersFindOne env users username with
  | .error _ =>
    { responses := [⟨500, .error "Registration failed"⟩], users := users, hashCalls := [] }
  | .ok (some _) =>
    { responses := [⟨400, .error "User already exists"⟩], users := users, hashCalls := [] }
  | .ok none =>
    match bcryptHash env password with
    | .error _ =>
      { responses := [⟨500, .error "Registration failed"⟩], users := users
        hashCalls := [password] }
    | .ok hashedPassword =>
      match usersInsertOne env users username hashedPassword with
      | .error _ =>
        { responses := [⟨500, .error "Registration failed"⟩], users := users
          hashCalls := [password] }
      | .ok stored =>
        { responses := [⟨200, .message "Admin registered successfully"⟩], users := stored
          hashCalls := [password] }

/-- The handler of `POST /api/auth/login`. -/
def login (env : AuthEnv) (users : List User) (username password : Option JsString) :
    AuthRun :=
  match usersFindOne env users username with
  | .error _ =>
    { responses := [⟨500, .error "Login failed"⟩], users := users, hashCalls := [] }
  | .ok none =>
    { responses := [⟨400, .error "Invalid credentials"⟩], users := users, hashCalls := [] }
  | .ok (some user) =>
    match bcryptCompare env password user.password with
    | .error _ =>
      { responses := [⟨500, .error "Login failed"⟩], users := users, hashCalls := [] }
    | .ok false =>
      { responses := [⟨400, .error "Invalid credentials"⟩], users := users, hashCalls := [] }
    | .ok true =>
      let token := env.lib.sign user._id.toString env.secret expiresIn2h env.clock
      { responses := [⟨200, .messageToken "Login successful" token⟩], users := users
        hashCalls := [] }

/-- A login whose username no stored account carries, the lookup completing. -/
def UnknownUsername (env : AuthEnv) (users : List User) (username : JsString) : Prop :=
  env.findOneError = none ∧ ∀ u ∈ users, u.username ≠ some username

/-- A login whose username the lookup finds and whose password the hash
comparison rejects against the stored hash. -/
def WrongPassword (env : AuthEnv) (users : List User) (username password : JsString) : Prop :=
  ∃ account, usersFindOne env users (some username) = .ok (some account)
    ∧ env.compare password account.password = false

/-! ## Content routes: the MongoDB driver as an oracle -/

/-- The collections of database `Yokai0090` the routes touch. -/
inductive Collection
  | projects | users | skills | experience | education | certificates
  | contactInfo | homePage | contacts
deriving DecidableEq, Repr

/-- One driver call on a content collection, with its arguments. -/
inductive StoreCall
  | find (c : Collection)
  | findOne (c : Collection)
  | findById (c : Collection) (id : ObjectId)
  | insertOne (c : Collection) (doc : Fields)
  | updateOne (c : Collection) (id : ObjectId) (set : Fields)
  | deleteOne (c : Collection) (id : ObjectId)
  | replaceOne (c : Collection) (doc : Fields)
deriving DecidableEq, Repr

/-- The collection a call inserts into, updates, replaces in or deletes from;
`none` for a read. -/
def StoreCall.writes : StoreCall → Option Collection
  | .find _ => none
  | .findOne _ => none
  | .findById _ _ => none
  | .insertOne c _ => some c
  | .updateOne c _ _ => some c
  | .deleteOne c _ => some c
  | .replaceOne c _ => some c

/-- The answers of the MongoDB driver and of the JavaScript runtime to the
calls of one request: `objectId` is `new ObjectId(s)` (throws on a malformed
id), `updateOne` answers `matchedCount`, `deleteOne` answers `deletedCount`,
`insertOne` answers `insertedId`, `today` is `new Date()`. -/
structure Driver where
  objectId : JsString → Except Thrown ObjectId
  find : Collection → Except Thrown (List Fields)
  findOne : Collection → Except Thrown (Option Fields)
  findById : Collection → ObjectId → Except Thrown (Option Fields)
  insertOne : Collection → Fields → Except Thrown ObjectId
  updateOne : Collection → ObjectId → Fields → Except Thrown Nat
  deleteOne : Collection → ObjectId → Except Thrown Nat
  replaceOne : Collection → Fields → Except Thrown Unit
  toLowerCase : JsString → JsString
  today : Nat

/-- The object `{ ...d, [key]: v }`. -/
def Fields.put (d : Fields) (key : String) (v : Value) : Fields :=
  if d.any fun kv => kv.1 == key then d.map fun kv => if kv.1 == key then (key, v) else kv
  else d ++ [(key, v)]

/-- The property `key` of a parsed body when it is a string. -/
def Fields.str (d : Fields) (key : String) : Option JsString :=
  match d.lookup key with
  | some (.str s) => some s
  | _ => none

/-- The request as the routes read it: `req.headers.authorization`,
`req.params.id` and `req.body`. -/
structure Request where
  authorization : Option JsString
  id : JsString
  body : Fields
deriving DecidableEq, Repr

/-- What one run of a content handler did. -/
structure HandlerRun where
  responses : List Response
  calls : List StoreCall
deriving DecidableEq, Repr

/-- Handlers `GET /api/projects`, `/api/skills`, ...: `find({}).toArray()`. -/
def listAll (drv : Driver) (c : Collection) (failed : String) : HandlerRun :=
  match drv.find c with
  | .ok docs => ⟨[⟨200, .documents docs⟩], [.find c]⟩
  | .error _ => ⟨[⟨500, .error failed⟩], [.find c]⟩

/-- Handlers `GET /api/contact-info` and `GET /api/homepage`: `findOne({})`,
answering `{}` when nothing is stored. -/
def findSingleton (drv : Driver) (c : Collection) (failed : String) : HandlerRun :=
  match drv.findOne c with
  | .ok doc => ⟨[⟨200, .document (doc.getD [])⟩], [.findOne c]⟩
  | .error _ => ⟨[⟨500, .error failed⟩], [.findOne c]⟩

/-- Handler `GET /:id` of routes/Projects.js. -/
def findProject (drv : Driver) (req : Request) : HandlerRun :=
  match drv.objectId req.id with
  | .error _ => ⟨[⟨500, .error "Failed to fetch project"⟩], []⟩
  | .ok oid =>
    match drv.findById .projects oid with
    | .error _ => ⟨[⟨500, .error "Failed to fetch project"⟩], [.findById .projects oid]⟩
    | .ok none => ⟨[⟨404, .error "Project not found"⟩], [.findById .projects oid]⟩
    | .ok (some doc) => ⟨[⟨200, .document doc⟩], [.findById .projects oid]⟩

/-- Handler `POST /api/projects` of server.js; reading `req.user.id` throws when
`req.user` was never set. -/
def createProject (drv : Driver) (req : Request) (user : Option Claims) : HandlerRun :=
  match user with
  | none => ⟨[⟨500, .error "Failed to create project"⟩], []⟩
  | some verified =>
    match drv.objectId verified.id with
    | .error _ => ⟨[⟨500, .error "Failed to create project"⟩], []⟩
    | .ok userId =>
      let newProject := (req.body.put "userId" (.oid userId)).put "createdAt" (.date drv.today)
      match drv.insertOne .projects newProject with
      | .ok insertedId =>
        ⟨[⟨201, .messageId "Project created successfully" insertedId⟩],
          [.insertOne .projects newProject]⟩
      | .error _ =>
        ⟨[⟨500, .error "Failed to create project"⟩], [.insertOne .projects newProject]⟩

/-- Handlers that insert `doc` and answer `{ message, id }` with `status`. -/
def insertDoc (drv : Driver) (c : Collection) (doc : Fields) (status : Nat)
    (done failed : String) : HandlerRun :=
  match drv.insertOne c doc with
  | .ok insertedId => ⟨[⟨status, .messageId done insertedId⟩], [.insertOne c doc]⟩
  | .error _ => ⟨[⟨500, .error failed⟩], [.insertOne c doc]⟩

/-- Handlers `PUT .../:id`: `updateOne({ _id: new ObjectId(id) }, { $set: req.body })`. -/
def updateById (drv : Driver) (c : Collection) (req : Request)
    (notFound done failed : String) : HandlerRun :=
  match drv.objectId req.id with
  | .error _ => ⟨[⟨500, .error failed⟩], []⟩
  | .ok oid =>
    match drv.updateOne c oid req.body with
    | .error _ => ⟨[⟨500, .error failed⟩], [.updateOne c oid req.body]⟩
    | .ok matchedCount =>
      if matchedCount = 0 then ⟨[⟨404, .error notFound⟩], [.updateOne c oid req.body]⟩
      else ⟨[⟨200, .message done⟩], [.updateOne c oid req.body]⟩

/-- Handlers `DELETE .../:id`: `deleteOne({ _id: new ObjectId(id) })`. -/
def deleteById (drv : Driver) (c : Collection) (req : Request)
    (notFound done failed : String) : HandlerRun :=
  match drv.objectId req.id with
  | .error _ => ⟨[⟨500, .error failed⟩], []⟩
  | .ok oid =>
    match drv.deleteOne c oid with
    | .error _ => ⟨[⟨500, .error failed⟩], [.deleteOne c oid]⟩
    | .ok deletedCount =>
      if deletedCount = 0 then ⟨[⟨404, .error notFound⟩], [.deleteOne c oid]⟩
      else ⟨[⟨200, .message done⟩], [.deleteOne c oid]⟩

/-- Handlers `PUT /api/contact-info` and `PUT /api/homepage`:
`replaceOne({}, { ...req.body, updatedAt: new Date() }, { upsert: true })`. -/
def replaceSingleton (drv : Driver) (c : Collection) (req : Request)
    (done failed : String) : HandlerRun :=
  let doc := req.body.put "updatedAt" (.date drv.today)
  match drv.replaceOne c doc with
  | .ok _ => ⟨[⟨200, .message done⟩], [.replaceOne c doc]⟩
  | .error _ => ⟨[⟨500, .error failed⟩], [.replaceOne c doc]⟩

/-- The test `/^[^\s@]+@[^\s@]+\.[^\s@]+$/.test(email)`: no white space, exactly
one `@` with something before it, and after it a dot that is neither the first
nor the last code unit. -/
def emailRegexTest (email : JsString) : Bool :=
  match jsSplit 0x40 email with
  | [l, d] => !l.isEmpty && !(email.any isJsSpace) && ((d.drop 1).dropLast.contains 0x2E)
  | _ => false

/-- Handler `POST /api/contact`. -/
def submitContact (drv : Driver) (req : Request) : HandlerRun :=
  match req.body.str "name", req.body.str "email", req.body.str "message" with
  | some name, some email, some message =>
    if name.isEmpty || email.isEmpty || message.isEmpty then
      ⟨[⟨400, .error "All fields are required"⟩], []⟩
    else if 100 < name.length || 100 < email.length || 1000 < message.length then
      ⟨[⟨400, .error "Input too long"⟩], []⟩
    else if !emailRegexTest email then
      ⟨[⟨400, .error "Invalid email format"⟩], []⟩
    else
      let contactData : Fields :=
        [("name", .str (jsTrim name)), ("email", .str (drv.toLowerCase (jsTrim email))),
         ("message", .str (jsTrim message)), ("createdAt", .date drv.today)]
      match drv.insertOne .contacts contactData with
      | .ok _ => ⟨[⟨200, .message "Message sent successfully"⟩], [.insertOne .contacts contactData]⟩
      | .error _ => ⟨[⟨500, .error "Failed to send message"⟩], [.insertOne .contacts contactData]⟩
  | _, _, _ => ⟨[⟨400, .error "All fields are required"⟩], []⟩

/-! ## Route tables and the Express pipeline -/

/-- HTTP methods the application registers routes for. -/
inductive Method
  | get | post | put | delete
deriving DecidableEq, Repr

/-- Middleware functions that can stand between a path and its handler. -/
inductive Middleware
  | verifyToken | validateAuth
deriving DecidableEq, Repr

/-- The handler bodies of server.js and routes/Projects.js, with the
collection and the messages each instance uses. -/
inductive Handler
  | register
  | login
  | list (c : Collection) (failed : String)
  | single (c : Collection) (failed : String)
  | findProject
  | createProject
  | insert (c : Collection) (stampCreatedAt : Bool) (status : Nat) (done failed : String)
  | update (c : Collection) (notFound done failed : String)
  | delete (c : Collection) (notFound done failed : String)
  | replace (c : Collection) (done failed : String)
  | submitContact
  | sendIndex
deriving DecidableEq, Repr

/-- One registration `app.METHOD(path, ...middleware, handler)`. -/
structure Route where
  method : Method
  path : String
  middleware : List Middleware
  handler : Handler
deriving DecidableEq, Repr

/-- The routes server.js registers, in source order; the catch-all that serves
the frontend exists only when `NODE_ENV` is `production`. -/
def serverRoutes (production : Bool) : List Route :=
  [ ⟨.post, "/api/auth/register", [], .register⟩,
    ⟨.post, "/api/auth/login", [], .login⟩,
    ⟨.get, "/api/projects", [], .list .projects "Failed to fetch projects"⟩,
    ⟨.post, "/api/projects", [.verifyToken], .createProject⟩,
    ⟨.put, "/api/projects/:id", [.verifyToken],
      .update .projects "Project not found" "Project updated successfully"
        "Failed to update project"⟩,
    ⟨.delete, "/api/projects/:id", [.verifyToken],
      .delete .projects "Project not found" "Project deleted successfully"
        "Failed to delete project"⟩,
    ⟨.get, "/api/skills", [], .list .skills "Failed to fetch skills"⟩,
    ⟨.post, "/api/skills", [.verifyToken],
      .insert .skills false 200 "Skill added successfully" "Failed to add skill"⟩,
    ⟨.put, "/api/skills/:id", [.verifyToken],
      .update .skills "Skill not found" "Skill updated successfully" "Failed to update skill"⟩,
    ⟨.delete, "/api/skills/:id", [.verifyToken],
      .delete .skills "Skill not found" "Skill deleted successfully" "Failed to delete skill"⟩,
    ⟨.get, "/api/experience", [], .list .experience "Failed to fetch experience"⟩,
    ⟨.post, "/api/experience", [.verifyToken],
      .insert .experience false 200 "Experience added successfully" "Failed to add experience"⟩,
    ⟨.put, "/api/experience/:id", [.verifyToken],
      .update .experience "Experience not found" "Experience updated successfully"
        "Failed to update experience"⟩,
    ⟨.delete, "/api/experience/:id", [.verifyToken],
      .delete .experience "Experience not found" "Experience deleted successfully"
        "Failed to delete experience"⟩,
    ⟨.get, "/api/education", [], .list .education "Failed to fetch education"⟩,
    ⟨.post, "/api/education", [.verifyToken],
      .insert .education false 200 "Education added successfully" "Failed to add education"⟩,
    ⟨.put, "/api/education/:id", [.verifyToken],
      .update .education "Education not found" "Education updated successfully"
        "Failed to update education"⟩,
    ⟨.delete, "/api/education/:id", [.verifyToken],
      .delete .education "Education not found" "Education deleted successfully"
        "Failed to delete education"⟩,
    ⟨.get, "/api/certificates", [], .list .certificates "Failed to fetch certificates"⟩,
    ⟨.post, "/api/certificates", [.verifyToken],
      .insert .certificates true 200 "Certificate added successfully"
        "Failed to add certificate"⟩,
    ⟨.put, "/api/certificates/:id", [.verifyToken],
      .update .certificates "Certificate not found" "Certificate updated successfully"
        "Failed to update certificate"⟩,
    ⟨.delete, "/api/certificates/:id", [.verifyToken],
      .delete .certificates "Certificate not found" "Certificate deleted successfully"
        "Failed to delete certificate"⟩,
    ⟨.post, "/api/contact", [], .submitContact⟩,
    ⟨.get, "/api/contacts", [.verifyToken], .list .contacts "Failed to fetch contacts"⟩,
    ⟨.get, "/api/contact-info", [], .single .contactInfo "Failed to fetch contact info"⟩,
    ⟨.put, "/api/contact-info", [.verifyToken],
      .replace .contactInfo "Contact info updated successfully" "Failed to update contact info"⟩,
    ⟨.get, "/api/homepage", [], .single .homePage "Failed to fetch home page data"⟩,
    ⟨.put, "/api/homepage", [.verifyToken],
      .replace .homePage "Home page updated successfully" "Failed to update home page"⟩ ]
  ++ (if production then [⟨.get, "*", [], .sendIndex⟩] else [])

/-- The routes routes/Projects.js puts on its router, in source order. -/
def projectsRouterRoutes : List Route :=
  [ ⟨.get, "/", [], .list .projects "Failed to fetch projects"⟩,
    ⟨.get, "/:id", [], .findProject⟩,
    ⟨.post, "/", [], .insert .projects false 201 "Project added" "Failed to add project"⟩,
    ⟨.put, "/:id", [],
      .update .projects "Project not found" "Project updated" "Failed to update project"⟩,
    ⟨.delete, "/:id", [],
      .delete .projects "Project not found" "Project deleted" "Failed to delete project"⟩ ]

/-- What serving one request did: the responses sent, the driver calls on
content collections in order, and the `users` collection afterwards. -/
structure RouteRun where
  responses : List Response
  calls : List StoreCall
  users : List User
deriving DecidableEq, Repr

/-- One handler body, run with the `req.user` the middleware left. -/
def runHandler (env : AuthEnv) (drv : Driver) (users : List User) (req : Request)
    (user : Option Claims) : Handler → RouteRun
  | .register =>
    let run := register env users (req.body.str "username") (req.body.str "password")
    ⟨run.responses, [], run.users⟩
  | .login =>
    let run := login env users (req.body.str "username") (req.body.str "password")
    ⟨run.responses, [], run.users⟩
  | .list c failed => let run := listAll drv c failed; ⟨run.responses, run.calls, users⟩
  | .single c failed => let run := findSingleton drv c failed; ⟨run.responses, run.calls, users⟩
  | .findProject => let run := findProject drv req; ⟨run.responses, run.calls, users⟩
  | .createProject => let run := createProject drv req user; ⟨run.responses, run.calls, users⟩
  | .insert c stampCreatedAt status done failed =>
    let doc := if stampCreatedAt then req.body.put "createdAt" (.date drv.today) else req.body
    let run := insertDoc drv c doc status done failed
    ⟨run.responses, run.calls, users⟩
  | .update c notFound done failed =>
    let run := updateById drv c req notFound done failed
    ⟨run.responses, run.calls, users⟩
  | .delete c notFound done failed =>
    let run := deleteById drv c req notFound done failed
    ⟨run.responses, run.calls, users⟩
  | .replace c done failed =>
    let run := replaceSingleton drv c req done failed
    ⟨run.responses, run.calls, users⟩
  | .submitContact => let run := submitContact drv req; ⟨run.responses, run.calls, users⟩
  | .sendIndex => ⟨[⟨200, .file "../frontend/build/index.html"⟩], [], users⟩

/-- Express runs the functions of a route in order; each one either ends the
request or calls `next`, which enters the following one. -/
def runChain (env : AuthEnv) (drv : Driver) (users : List User) (req : Request)
    (handler : Handler) : List Middleware → Option Claims → RouteRun
  | [], user => runHandler env drv users req user handler
  | .verifyToken :: rest, _ =>
    let gate := verifyToken env.lib env.secret env.clock req.authorization
    if gate.nextCalls = 0 then ⟨gate.responses, [], users⟩
    else
      let run := runChain env drv users req handler rest gate.user
      ⟨gate.responses ++ run.responses, run.calls, run.users⟩
  | .validateAuth :: rest, user =>
    let check := validateAuth (req.body.str "username") (req.body.str "password")
    if check.nextCalls = 0 then ⟨check.responses, [], users⟩
    else
      let run := runChain env drv users req handler rest user
      ⟨check.responses ++ run.responses, run.calls, run.users⟩

/-- Serving a request that matched route `r`. -/
def runRoute (env : AuthEnv) (drv : Driver) (users : List User) (r : Route)
    (req : Request) : RouteRun :=
  runChain env drv users req r.handler r.middleware none

/-- The collections the portfolio content lives in. -/
def contentCollections : List Collection :=
  [.projects, .skills, .experience, .education, .certificates, .contactInfo, .homePage]

/-- The collection a handler body addresses its insert, update, replace or
delete call to, read off the source; `none` for a body without such a call.
The account handlers work on `users` through `register` and `login`. -/
def Handler.target : Handler → Option Collection
  | .register => none
  | .login => none
  | .list _ _ => none
  | .single _ _ => none
  | .findProject => none
  | .createProject => some .projects
  | .insert c _ _ _ _ => some c
  | .update c _ _ _ => some c
  | .delete c _ _ _ => some c
  | .replace c _ _ => some c
  | .submitContact => some .contacts
  | .sendIndex => none

/-- The request carries no valid token: the Authorization header is missing or
empty, or `jwt.verify` throws on its token segment. -/
def NoValidToken (env : AuthEnv) (req : Request) : Prop :=
  falsy req.authorization = true
    ∨ ∃ e, env.lib.verify (tokenSegment req.authorization) env.secret env.clock = .error e

/-- The run wrote to none of the content collections. -/
def RouteRun.NoContentWrite (run : RouteRun) : Prop :=
  ∀ call ∈ run.calls, ∀ c ∈ contentCollections, call.writes ≠ some c

/-- The list of accounts holds at most one account per `username` value. -/
def UniqueUsernames (users : List User) : Prop :=
  (users.map fun u => u.username).Nodup

instance (users : List User) : Decidable (UniqueUsernames users) :=
  inferInstanceAs (Decidable (List.Nodup _))

/-- One `Register` call: the environment of the request and its credentials. -/
structure RegisterCall where
  env : AuthEnv
  username : Option JsString
  password : Option JsString

/-- The `users` collection after a sequence of `Register` calls served one
after the other, starting from `users`. -/
def registerAll (users : List User) (calls : List RegisterCall) : List User :=
  calls.foldl (fun stored c => (register c.env stored c.username c.password).users) users

/-- The request carries a valid token: the Authorization header is non-empty
and `jwt.verify` returns a payload for its token segment, so that `verifyToken`
calls `next`. -/
def ValidToken (env : AuthEnv) (req : Request) : Prop :=
  falsy req.authorization = false
    ∧ ∃ verified, env.lib.verify (tokenSegment req.authorization) env.secret env.clock
        = .ok verified

/-- The collections that have `PUT /:id` and `DELETE /:id` routes in server.js. -/
def byIdCollections : List Collection :=
  [.projects, .skills, .experience, .education, .certificates]

/-- The handler of a `PUT /:id` (`update` true) or `DELETE /:id` route. -/
def byIdHandler (update : Bool) (c : Collection) (notFound done failed : String) : Handler :=
  if update then .update c notFound done failed else .delete c notFound done failed

/-- The single store operation of such a handler, once the record id is built. -/
def byIdCall (update : Bool) (c : Collection) (req : Request) (oid : ObjectId) : StoreCall :=
  if update then .updateOne c oid req.body else .deleteOne c oid

/-- What the driver reports for that operation: `matchedCount` of the update or
`deletedCount` of the delete, or the error it throws. -/
def byIdReport (drv : Driver) (update : Bool) (c : Collection) (req : Request)
    (oid : ObjectId) : Except Thrown Nat :=
  if update then drv.updateOne c oid req.body else drv.deleteOne c oid

/-- Building the record id from the path parameter, or the store operation, throws. -/
def ByIdThrows (drv : Driver) (update : Bool) (c : Collection) (req : Request) : Prop :=
  (∃ e, drv.objectId req.id = .error e)
    ∨ ∃ oid e, drv.objectId req.id = .ok oid ∧ byIdReport drv update c req oid = .error e

/-- A route with an update-by-id or delete-by-id handler works on one of
`byIdCollections` behind `verifyToken` alone. -/
def Route.byIdGated (r : Route) : Bool :=
  match r.handler with
  | .update c _ _ _ => decide (c ∈ byIdCollections ∧ r.middleware = [.verifyToken])
  | .delete c _ _ _ => decide (c ∈ byIdCollections ∧ r.middleware = [.verifyToken])
  | _ => true

/-! ## A small instance of the environment

A stand-in for `jsonwebtoken` that meets `JwtLib.Sound`, and fixed answers for
the other collaborators; they instantiate the theorems on concrete requests. -/

/-- Signing in the stand-in: issue time, lifetime, length of the id, the id,
then the secret as signature, every unit shifted past the blank. -/
def demoSign (id secret : JsString) (ttl issued : Nat) : JsString :=
  (issued + 33) :: (ttl + 33) :: (id.length + 33) :: (id.map (· + 33) ++ secret.map (· + 33))

/-- Verification in the stand-in. -/
def demoVerify (token : Option JsString) (secret : JsString) (clock : Nat) :
    Except Thrown Claims :=
  match token with
  | none => .error "jwt must be provided"
  | some (a :: b :: n :: rest) =>
    if 33 ≤ a ∧ 33 ≤ b ∧ 33 ≤ n ∧ rest.drop (n - 33) = secret.map (· + 33)
        ∧ n - 33 ≤ rest.length ∧ ∀ x ∈ rest, 33 ≤ x then
      if clock < (a - 33) + (b - 33) then
        .ok { id := (rest.take (n - 33)).map (· - 33), iat := a - 33, exp := (a - 33) + (b - 33) }
      else .error "jwt expired"
    else .error "invalid signature"
  | some _ => .error "jwt malformed"

/-- The stand-in library. -/
def demoJwt : JwtLib := ⟨demoSign, demoVerify⟩

/-- An environment with a working store connection. -/
def demoEnv (clock : Nat) : AuthEnv :=
  { lib := demoJwt, secret := js "s3cret", clock := clock
    hash := fun s => 36 :: s.reverse
    compare := fun s h => h == 36 :: s.reverse
    findOneError := none, insertOneError := none
    newId := ⟨js "65f0c0ffee0000000000beef"⟩ }

/-- The store after `admin` registered with password `secret` on an empty store. -/
def demoUsers : List User :=
  (register (demoEnv 0) [] (some (js "admin")) (some (js "secret"))).users

/-- A request to a by-id route of record `65f0c0ffee0000000000cafe`, with the
token the stand-in library signed for the demo account when the clock read 0. -/
def demoRequest : Request :=
  { authorization := some (js "Bearer "
      ++ demoSign (js "65f0c0ffee0000000000beef") (js "s3cret") expiresIn2h 0)
    id := js "65f0c0ffee0000000000cafe"
    body := [("name", .str (js "Lean"))] }

/-- A driver that accepts every id and reports one matched document. -/
def demoDriver : Driver :=
  { objectId := fun s => .ok ⟨s⟩
    find := fun _ => .ok []
    findOne := fun _ => .ok none
    findById := fun _ _ => .ok none
    insertOne := fun _ _ => .ok ⟨js "65f0c0ffee0000000000cafe"⟩
    updateOne := fun _ _ _ => .ok 1
    deleteOne := fun _ _ => .ok 1
    replaceOne := fun _ _ => .ok ()
    toLowerCase := fun s => s.map fun c => if 0x41 ≤ c ∧ c ≤ 0x5A then c + 0x20 else c
    today := 1700000000 }

/-! ## Theorems -/

theorem falsy_iff (h : Option JsString) : falsy h = true ↔ h = none ∨ h = some [] := by
  cases h with
  | none => simp [falsy]
  | some s => cases s <;> simp [falsy]

/-- C1: a request whose Authorization header is missing or empty is answered
with 401 and `{error: "Access denied. No token."}`; `next` is not called,
`jwt.verify` is not invoked and `req.user` stays unset. -/
theorem verifyToken_missing_header (lib : JwtLib) (secret : JsString) (clock : Nat)
    (authHeader : Option JsString) (h : authHeader = none ∨ authHeader = some []) :
    (verifyToken lib secret clock authHeader).responses
        = [⟨401, .error "Access denied. No token."⟩]
      ∧ (verifyToken lib secret clock authHeader).nextCalls = 0
      ∧ (verifyToken lib secret clock authHeader).verifyCalls = []
      ∧ (verifyToken lib secret clock authHeader).user = none := by
  have hf : falsy authHeader = true := (falsy_iff authHeader).2 h
  simp [verifyToken, hf]

theorem verifyToken_missing_header_witness :
    (verifyToken demoJwt (js "s3cret") 10 (some (js ""))).responses
        = [⟨401, .error "Access denied. No token."⟩]
      ∧ (verifyToken demoJwt (js "s3cret") 10 (some (js ""))).nextCalls = 0
      ∧ (verifyToken demoJwt (js "s3cret") 10 (some (js ""))).verifyCalls = []
      ∧ (verifyToken demoJwt (js "s3cret") 10 (some (js ""))).user = none :=
  verifyToken_missing_header demoJwt (js "s3cret") 10 (some (js "")) (Or.inr (by decide))

/-- C2: when the Authorization header is present and non-empty and `jwt.verify`
throws on its second blank-separated piece (`undefined` when there is none),
the request is answered with 403 and `{error: "Invalid or expired token"}`;
`next` is not called and `req.user` stays unset. -/
theorem verifyToken_invalid_token (lib : JwtLib) (secret : JsString) (clock : Nat)
    (header : JsString) (hne : header ≠ [])
    (hfail : ∃ e, lib.verify ((jsSplit 0x20 header)[1]?) secret clock = .error e) :
    (verifyToken lib secret clock (some header)).responses
        = [⟨403, .error "Invalid or expired token"⟩]
      ∧ (verifyToken lib secret clock (some header)).nextCalls = 0
      ∧ (verifyToken lib secret clock (some header)).user = none := by
  obtain ⟨e, he⟩ := hfail
  have hf : falsy (some header) = false := by
    cases header with
    | nil => exact absurd rfl hne
    | cons c cs => rfl
  simp [verifyToken, hf, tokenSegment, he]

theorem verifyToken_invalid_token_witness :
    (verifyToken demoJwt (js "s3cret") 10 (some (js "Bearer"))).responses
        = [⟨403, .error "Invalid or expired token"⟩]
      ∧ (verifyToken demoJwt (js "s3cret") 10 (some (js "Bearer"))).nextCalls = 0
      ∧ (verifyToken demoJwt (js "s3cret") 10 (some (js "Bearer"))).user = none :=
  verifyToken_invalid_token demoJwt (js "s3cret") 10 (js "Bearer") (by decide)
    ⟨"jwt must be provided", rfl⟩

theorem validateAuth_username_test (username : Option JsString) :
    (falsy username || decide ((jsTrim (username.getD [])).length < 3)) = true
      ↔ ¬ UsernameOk username := by
  cases username with
  | none => simp [falsy, UsernameOk]
  | some u =>
    cases u with
    | nil => simp [falsy, UsernameOk, jsTrim]
    | cons c cs => simp [falsy, UsernameOk]

theorem validateAuth_password_test (password : Option JsString) :
    (falsy password || decide ((password.getD []).length < 4)) = true
      ↔ ¬ PasswordOk password := by
  cases password with
  | none => simp [falsy, PasswordOk]
  | some p =>
    cases p with
    | nil => simp [falsy, PasswordOk]
    | cons c cs => simp [falsy, PasswordOk]; omega

/-- C8: `validateAuth` calls `next` exactly once and sends nothing exactly when
the trimmed username has at least 3 code units and the untrimmed password at
least 4; otherwise it sends exactly one 400 response and does not call `next`,
with the username message whenever the username check fails and the password
message exactly when the username is acceptable and the password is not. -/
theorem validateAuth_spec (username password : Option JsString) :
    (((validateAuth username password).nextCalls = 1
        ∧ (validateAuth username password).responses = [])
        ↔ (UsernameOk username ∧ PasswordOk password))
      ∧ (¬ (UsernameOk username ∧ PasswordOk password) →
          (validateAuth username password).nextCalls = 0
            ∧ ∃ msg, (validateAuth username password).responses = [⟨400, .error msg⟩])
      ∧ (¬ UsernameOk username →
          (validateAuth username password).responses
            = [⟨400, .error "Username must be at least 3 characters"⟩])
      ∧ ((validateAuth username password).responses
            = [⟨400, .error "Password must be at least 4 characters"⟩]
          ↔ (UsernameOk username ∧ ¬ PasswordOk password)) := by
  have hu := validateAuth_username_test username
  have hp := validateAuth_password_test password
  by_cases h1 : UsernameOk username
  · have hu1 : (falsy username || decide ((jsTrim (username.getD [])).length < 3)) = false := by
      cases hb : (falsy username || decide ((jsTrim (username.getD [])).length < 3))
      · rfl
      · exact absurd h1 (hu.1 hb)
    by_cases h2 : PasswordOk password
    · have hp1 : (falsy password || decide ((password.getD []).length < 4)) = false := by
        cases hb : (falsy password || decide ((password.getD []).length < 4))
        · rfl
        · exact absurd h2 (hp.1 hb)
      simp [validateAuth, hu1, hp1, h1, h2]
    · have hp1 := hp.2 h2
      simp [validateAuth, hu1, hp1, h1, h2]
  · have hu1 := hu.2 h1
    simp [validateAuth, hu1, h1]

theorem validateAuth_spec_witness :
    (validateAuth (some (js " ab ")) (some (js "x"))).responses
      = [⟨400, .error "Username must be at least 3 characters"⟩] :=
  (validateAuth_spec (some (js " ab ")) (some (js "x"))).2.2.1
    (by rintro ⟨u, hu, hlen⟩; cases hu; revert hlen; decide)

theorem jsSplit_no_sep (sep : Nat) (t : JsString) (h : sep ∉ t) : jsSplit sep t = [t] := by
  induction t with
  | nil => rfl
  | cons c cs ih =>
    have hc : c ≠ sep := fun e => h (by simp [e])
    have hcs : sep ∉ cs := fun m => h (List.mem_cons_of_mem _ m)
    simp [jsSplit, hc, ih hcs]

theorem bearer_header_segment (token : JsString) (h : 0x20 ∉ token) :
    tokenSegment (some (js "Bearer " ++ token)) = some token := by
  have hb : js "Bearer " = [66, 101, 97, 114, 101, 114, 32] := by decide
  simp [tokenSegment, hb, jsSplit, jsSplit_no_sep 32 token h]

theorem bearer_header_truthy (token : JsString) :
    falsy (some (js "Bearer " ++ token)) = false := by
  have hb : js "Bearer " = [66, 101, 97, 114, 101, 114, 32] := by decide
  simp [falsy, hb]

theorem verifyToken_signed_live (lib : JwtLib) (hlib : lib.Sound) (secret id : JsString)
    (ttl issued t : Nat) (ht : t < issued + ttl) :
    (verifyToken lib secret t (some (js "Bearer " ++ lib.sign id secret ttl issued))).Passed id := by
  simp [verifyToken, bearer_header_truthy, bearer_header_segment _ (hlib.no_blank _ _ _ _),
    hlib.live id secret ttl issued t ht, GateRun.Passed]

theorem verifyToken_signed_expired (lib : JwtLib) (hlib : lib.Sound) (secret id : JsString)
    (ttl issued t : Nat) (ht : issued + ttl ≤ t) :
    (verifyToken lib secret t (some (js "Bearer " ++ lib.sign id secret ttl issued))).Rejected := by
  obtain ⟨e, he⟩ := hlib.expired id secret ttl issued t ht
  simp [verifyToken, bearer_header_truthy, bearer_header_segment _ (hlib.no_blank _ _ _ _),
    he, GateRun.Rejected]

theorem login_ok_token (env : AuthEnv) (users : List User) (username password : Option JsString)
    (account : User) (token : JsString)
    (hfound : usersFindOne env users username = .ok (some account))
    (hlogin : (login env users username password).responses
      = [⟨200, .messageToken "Login successful" token⟩]) :
    token = env.lib.sign account._id.toString env.secret expiresIn2h env.clock := by
  unfold login at hlogin
  rw [hfound] at hlogin
  cases hc : bcryptCompare env password account.password with
  | error e => simp [hc] at hlogin
  | ok b =>
    cases b with
    | false => simp [hc] at hlogin
    | true => simp [hc] at hlogin; exact hlogin.symm

/-- C3: the token a successful login issues when the clock reads `T`, sent as
`Bearer <token>` when the clock reads `t`, passes `verifyToken` (one `next`
call, no response, `req.user.id` the account id as a string) whenever
`t < T + 7200` and is rejected with 403 whenever `T + 7200 < t`; in particular
it passes at `T + 7199` and is rejected at `T + 7201`. -/
theorem login_token_valid_two_hours (env : AuthEnv) (hlib : env.lib.Sound)
    (users : List User) (username password : Option JsString) (account : User)
    (token : JsString)
    (hfound : usersFindOne env users username = .ok (some account))
    (hlogin : (login env users username password).responses
      = [⟨200, .messageToken "Login successful" token⟩]) :
    (∀ t, t < env.clock + 7200 →
        (verifyToken env.lib env.secret t (some (js "Bearer " ++ token))).Passed
          account._id.toString)
      ∧ (∀ t, env.clock + 7200 < t →
        (verifyToken env.lib env.secret t (some (js "Bearer " ++ token))).Rejected)
      ∧ (verifyToken env.lib env.secret (env.clock + 7199) (some (js "Bearer " ++ token))).Passed
          account._id.toString
      ∧ (verifyToken env.lib env.secret (env.clock + 7201)
          (some (js "Bearer " ++ token))).Rejected := by
  have htok := login_ok_token env users username password account token hfound hlogin
  subst htok
  have h2 : expiresIn2h = 7200 := by decide
  rw [h2]
  refine ⟨fun t ht => ?_, fun t ht => ?_, ?_, ?_⟩
  · exact verifyToken_signed_live env.lib hlib env.secret _ 7200 env.clock t ht
  · exact verifyToken_signed_expired env.lib hlib env.secret _ 7200 env.clock t (Nat.le_of_lt ht)
  · exact verifyToken_signed_live env.lib hlib env.secret _ 7200 env.clock _ (by omega)
  · exact verifyToken_signed_expired env.lib hlib env.secret _ 7200 env.clock _ (by omega)

theorem demoVerify_demoSign (id secret : JsString) (ttl issued clock : Nat) :
    demoVerify (some (demoSign id secret ttl issued)) secret clock =
      if clock < issued + ttl then .ok { id := id, iat := issued, exp := issued + ttl }
      else .error "jwt expired" := by
  have hrest : ∀ x ∈ List.map (· + 33) id ++ List.map (· + 33) secret, 33 ≤ x := by
    intro x hx
    rcases List.mem_append.1 hx with h | h <;>
      (obtain ⟨y, _, rfl⟩ := List.mem_map.1 h; omega)
  have hdrop : List.drop id.length (List.map (· + 33) id ++ List.map (· + 33) secret)
      = List.map (· + 33) secret := by
    rw [List.drop_append_of_le_length (by simp)]
    simp
  have htake : List.take id.length (List.map (· + 33) id ++ List.map (· + 33) secret)
      = List.map (· + 33) id := by
    rw [List.take_append_of_le_length (by simp)]
    simp
  have hcond : 33 ≤ issued + 33 ∧ 33 ≤ ttl + 33 ∧ 33 ≤ id.length + 33
      ∧ List.drop (id.length + 33 - 33) (List.map (· + 33) id ++ List.map (· + 33) secret)
          = List.map (· + 33) secret
      ∧ id.length + 33 - 33 ≤ (List.map (· + 33) id ++ List.map (· + 33) secret).length
      ∧ ∀ x ∈ List.map (· + 33) id ++ List.map (· + 33) secret, 33 ≤ x := by
    refine ⟨by omega, by omega, by omega, ?_, ?_, hrest⟩
    · simp
    · simp
  have hid : List.map ((fun x => x - 33) ∘ fun x => x + 33) id = id := by
    simp [Function.comp_def]
  unfold demoVerify demoSign
  simp only [Nat.add_sub_cancel] at hcond ⊢
  rw [if_pos hcond]
  simp only [htake, List.map_map, hid]

theorem demoJwt_sound : demoJwt.Sound where
  no_blank := by
    intro id secret ttl issued hmem
    simp only [demoJwt, demoSign, List.mem_cons, List.mem_append, List.mem_map] at hmem
    rcases hmem with h | h | h | ⟨y, _, h⟩ | ⟨y, _, h⟩ <;> omega
  live := by
    intro id secret ttl issued clock h
    show demoVerify (some (demoSign id secret ttl issued)) secret clock = _
    rw [demoVerify_demoSign, if_pos h]
  expired := by
    intro id secret ttl issued clock h
    refine ⟨"jwt expired", ?_⟩
    show demoVerify (some (demoSign id secret ttl issued)) secret clock = _
    rw [demoVerify_demoSign, if_neg (by omega)]

theorem login_token_valid_two_hours_witness :
    (verifyToken demoJwt (js "s3cret") 8199
      (some (js "Bearer "
        ++ demoSign (js "65f0c0ffee0000000000beef") (js "s3cret") 7200 1000))).Passed
      (js "65f0c0ffee0000000000beef") :=
  (login_token_valid_two_hours (demoEnv 1000) demoJwt_sound demoUsers (some (js "admin"))
    (some (js "secret"))
    ⟨⟨js "65f0c0ffee0000000000beef"⟩, some (js "admin"), 36 :: (js "secret").reverse⟩
    (demoSign (js "65f0c0ffee0000000000beef") (js "s3cret") 7200 1000) rfl rfl).2.2.1

theorem usersFindOne_absent (env : AuthEnv) (users : List User) (username : Option JsString)
    (h : env.findOneError = none) :
    usersFindOne env users username = .ok none ↔ ∀ u ∈ users, u.username ≠ username := by
  simp [usersFindOne, h, List.find?_eq_none]

/-- A run of `register` either leaves the store as it was or, the lookup having
found nobody, appends one account with the requested username. -/
theorem register_users (env : AuthEnv) (users : List User) (username password : Option JsString) :
    (register env users username password).users = users
      ∨ ((∀ u ∈ users, u.username ≠ username)
          ∧ ∃ h, (register env users username password).users
                = users ++ [{ _id := env.newId, username := username, password := h }]) := by
  unfold register
  cases hfe : env.findOneError with
  | some e => simp [usersFindOne, hfe]
  | none =>
    cases hf : users.find? (fun u => u.username == username) with
    | some a => simp [usersFindOne, hfe, hf]
    | none =>
      have habs : ∀ u ∈ users, u.username ≠ username := by
        simpa [List.find?_eq_none] using hf
      cases password with
      | none => simp [usersFindOne, hfe, hf, bcryptHash]
      | some p =>
        cases hie : env.insertOneError with
        | some e => simp [usersFindOne, hfe, hf, bcryptHash, usersInsertOne, hie]
        | none =>
          by_cases hdup : (users.any fun u => u._id == env.newId) = true
          · simp [usersFindOne, hfe, hf, bcryptHash, usersInsertOne, hie, hdup]
          · right
            refine ⟨habs, env.hash p, ?_⟩
            simp [usersFindOne, hfe, hf, bcryptHash, usersInsertOne, hie, hdup]

/-- A successful registration of string credentials appended the account with
the hash of the password. -/
theorem register_success (env : AuthEnv) (users : List User) (u p : JsString)
    (h : (register env users (some u) (some p)).responses
      = [⟨200, .message "Admin registered successfully"⟩]) :
    (register env users (some u) (some p)).users
        = users ++ [{ _id := env.newId, username := some u, password := env.hash p }]
      ∧ ∀ a ∈ users, a.username ≠ some u := by
  unfold register at h ⊢
  cases hfe : env.findOneError with
  | some e => simp [usersFindOne, hfe] at h
  | none =>
    cases hf : users.find? (fun a => a.username == some u) with
    | some a => simp [usersFindOne, hfe, hf] at h
    | none =>
      have habs : ∀ a ∈ users, a.username ≠ some u := by
        simpa [List.find?_eq_none] using hf
      cases hie : env.insertOneError with
      | some e => simp [usersFindOne, hfe, hf, bcryptHash, usersInsertOne, hie] at h
      | none =>
        by_cases hdup : (users.any fun a => a._id == env.newId) = true
        · simp [usersFindOne, hfe, hf, bcryptHash, usersInsertOne, hie, hdup] at h
        · refine ⟨?_, habs⟩
          simp [usersFindOne, hfe, hf, bcryptHash, usersInsertOne, hie, hdup]

/-- C4: when `Register(username, password)` succeeds (username of at least 3
code units, password of at least 4), a `Login` with the same credentials on the
resulting store answers 200 with `{message: "Login successful", token}`,
provided the hash comparison accepts the password against the hash just stored
and the lookup completes. -/
theorem register_then_login (envR envL : AuthEnv) (users : List User) (u p : JsString)
    (_hu : 3 ≤ u.length) (_hp : 4 ≤ p.length)
    (hreg : (register envR users (some u) (some p)).responses
      = [⟨200, .message "Admin registered successfully"⟩])
    (hcmp : envL.compare p (envR.hash p) = true)
    (hfind : envL.findOneError = none) :
    (login envL (register envR users (some u) (some p)).users (some u) (some p)).responses
      = [⟨200, .messageToken "Login successful"
          (envL.lib.sign envR.newId.toString envL.secret expiresIn2h envL.clock)⟩] := by
  obtain ⟨hstored, habs⟩ := register_success envR users u p hreg
  have hnone : users.find? (fun a => a.username == some u) = none := by
    simpa [List.find?_eq_none] using habs
  rw [hstored]
  simp [login, usersFindOne, hfind, List.find?_append, hnone, bcryptCompare, hcmp]

theorem register_then_login_witness :
    (login (demoEnv 1000)
        (register (demoEnv 0) [] (some (js "admin")) (some (js "secret"))).users
        (some (js "admin")) (some (js "secret"))).responses
      = [⟨200, .messageToken "Login successful"
          ((demoEnv 1000).lib.sign (demoEnv 0).newId.toString (demoEnv 1000).secret expiresIn2h
            (demoEnv 1000).clock)⟩] :=
  register_then_login (demoEnv 0) (demoEnv 1000) [] (js "admin") (js "secret")
    (by decide) (by decide) (by decide) (by decide) rfl

/-- C5: on a store that holds an account with username `u`, the lookup
completing, `Register(u, p)` answers 400 with `{error: "User already exists"}`
for every password `p`; the run is the same for any two passwords, computes no
hash and leaves the store as it was. -/
theorem register_existing_username (env : AuthEnv) (users : List User) (u : JsString)
    (p q : Option JsString) (account : User) (hmem : account ∈ users)
    (hname : account.username = some u) (hfind : env.findOneError = none) :
    (register env users (some u) p).responses = [⟨400, .error "User already exists"⟩]
      ∧ (register env users (some u) p).hashCalls = []
      ∧ (register env users (some u) p).users = users
      ∧ register env users (some u) p = register env users (some u) q := by
  cases hf : users.find? (fun a => a.username == some u) with
  | none =>
    have := (List.find?_eq_none.1 hf) account hmem
    simp [hname] at this
  | some a => simp [register, usersFindOne, hfind, hf]

theorem register_existing_username_witness :
    (register (demoEnv 5) demoUsers (some (js "admin")) (some (js "other"))).responses
        = [⟨400, .error "User already exists"⟩]
      ∧ (register (demoEnv 5) demoUsers (some (js "admin")) (some (js "other"))).hashCalls = []
      ∧ (register (demoEnv 5) demoUsers (some (js "admin")) (some (js "other"))).users
          = demoUsers
      ∧ register (demoEnv 5) demoUsers (some (js "admin")) (some (js "other"))
          = register (demoEnv 5) demoUsers (some (js "admin")) none :=
  register_existing_username (demoEnv 5) demoUsers (js "admin") (some (js "other")) none
    ⟨⟨js "65f0c0ffee0000000000beef"⟩, some (js "admin"), 36 :: (js "secret").reverse⟩
    (by decide) rfl rfl

/-- C6: a login with a username no account carries and a login with a stored
username and a password the hash comparison rejects (any two such requests,
on any stores) send the same single response: status 400, body
`{error: "Invalid credentials"}`, no `token` key. -/
theorem login_failures_identical (env₁ env₂ : AuthEnv) (users₁ users₂ : List User)
    (u₁ p₁ u₂ p₂ : JsString)
    (h₁ : UnknownUsername env₁ users₁ u₁ ∨ WrongPassword env₁ users₁ u₁ p₁)
    (h₂ : UnknownUsername env₂ users₂ u₂ ∨ WrongPassword env₂ users₂ u₂ p₂) :
    (login env₁ users₁ (some u₁) (some p₁)).responses
        = (login env₂ users₂ (some u₂) (some p₂)).responses
      ∧ (login env₁ users₁ (some u₁) (some p₁)).responses
        = [⟨400, .error "Invalid credentials"⟩]
      ∧ ∀ r ∈ (login env₁ users₁ (some u₁) (some p₁)).responses
          ++ (login env₂ users₂ (some u₂) (some p₂)).responses, "token" ∉ r.body.keys := by
  have key : ∀ (env : AuthEnv) (users : List User) (u p : JsString),
      UnknownUsername env users u ∨ WrongPassword env users u p →
      (login env users (some u) (some p)).responses = [⟨400, .error "Invalid credentials"⟩] := by
    intro env users u p h
    rcases h with ⟨hfe, habs⟩ | ⟨a, hfound, hcmp⟩
    · have := (usersFindOne_absent env users (some u) hfe).2 habs
      simp [login, this]
    · simp [login, hfound, bcryptCompare, hcmp]
  rw [key env₁ users₁ u₁ p₁ h₁, key env₂ users₂ u₂ p₂ h₂]
  simp [Body.keys]

theorem login_failures_identical_witness :
    (login (demoEnv 9) demoUsers (some (js "nobody")) (some (js "secret"))).responses
      = (login (demoEnv 9) demoUsers (some (js "admin")) (some (js "wrong"))).responses :=
  (login_failures_identical (demoEnv 9) (demoEnv 9) demoUsers demoUsers (js "nobody")
    (js "secret") (js "admin") (js "wrong")
    (Or.inl ⟨rfl, by decide⟩)
    (Or.inr ⟨⟨⟨js "65f0c0ffee0000000000beef"⟩, some (js "admin"), 36 :: (js "secret").reverse⟩,
      rfl, by decide⟩)).1

theorem register_preserves_unique (env : AuthEnv) (users : List User)
    (username password : Option JsString) (h : UniqueUsernames users) :
    UniqueUsernames (register env users username password).users := by
  rcases register_users env users username password with hsame | ⟨habs, hash, happ⟩
  · rw [hsame]; exact h
  · rw [happ]
    unfold UniqueUsernames at h ⊢
    rw [List.map_append, List.nodup_append]
    refine ⟨h, by simp, ?_⟩
    intro a ha hb
    simp only [List.map_cons, List.map_nil, List.mem_singleton] at hb
    subst hb
    obtain ⟨x, hx, rfl⟩ := List.mem_map.1 ha
    exact habs x hx rfl

theorem registerAll_unique (calls : List RegisterCall) (users : List User)
    (h : UniqueUsernames users) : UniqueUsernames (registerAll users calls) := by
  induction calls generalizing users with
  | nil => exact h
  | cons c cs ih =>
    exact ih _ (register_preserves_unique c.env users c.username c.password h)

/-- C10: under sequential `Register` calls username uniqueness is an invariant:
a store with at most one account per username has at most one per username
after any call, successful or failed, and so has every store reached from the
empty store by a sequence of calls. -/
theorem username_uniqueness_invariant :
    (∀ (env : AuthEnv) (users : List User) (username password : Option JsString),
        UniqueUsernames users → UniqueUsernames (register env users username password).users)
      ∧ ∀ calls : List RegisterCall, UniqueUsernames (registerAll [] calls) :=
  ⟨register_preserves_unique, fun calls => registerAll_unique calls [] List.nodup_nil⟩

theorem username_uniqueness_invariant_witness :
    UniqueUsernames (register (demoEnv 5) demoUsers (some (js "guest")) (some (js "pass"))).users
      ∧ UniqueUsernames (registerAll []
          [⟨demoEnv 0, some (js "admin"), some (js "secret")⟩,
           ⟨demoEnv 1, some (js "admin"), some (js "again")⟩]) :=
  ⟨username_uniqueness_invariant.1 (demoEnv 5) demoUsers (some (js "guest")) (some (js "pass"))
      (by decide),
    username_uniqueness_invariant.2 _⟩

/-- C7 (the code departs from the claim): no route of server.js carries
`validateAuth`; the registration route runs its handler directly, so a username
of 2 code units with a password of 1, which `validateAuth` would answer with
400, is registered on the empty store with a 200 response. -/
theorem register_route_skips_validateAuth :
    (∀ production, ∀ r ∈ serverRoutes production, Middleware.validateAuth ∉ r.middleware)
      ∧ (⟨.post, "/api/auth/register", [], .register⟩ : Route) ∈ serverRoutes false
      ∧ (validateAuth (some (js "ab")) (some (js "x"))).responses
          = [⟨400, .error "Username must be at least 3 characters"⟩]
      ∧ runRoute (demoEnv 0) demoDriver [] ⟨.post, "/api/auth/register", [], .register⟩
          ⟨none, [], [("username", .str (js "ab")), ("password", .str (js "x"))]⟩
        = ⟨[⟨200, .message "Admin registered successfully"⟩], [],
            [⟨⟨js "65f0c0ffee0000000000beef"⟩, some (js "ab"), 36 :: (js "x").reverse⟩]⟩ := by
  refine ⟨?_, by decide, by decide, by decide⟩
  intro production
  cases production <;> decide

theorem listAll_calls (drv : Driver) (c : Collection) (failed : String) :
    (listAll drv c failed).calls = [.find c] := by
  unfold listAll; split <;> rfl

theorem findSingleton_calls (drv : Driver) (c : Collection) (failed : String) :
    (findSingleton drv c failed).calls = [.findOne c] := by
  unfold findSingleton; split <;> rfl

theorem findProject_calls (drv : Driver) (req : Request) :
    ∀ call ∈ (findProject drv req).calls, call.writes = none := by
  unfold findProject
  repeat' split
  all_goals simp [StoreCall.writes]

theorem createProject_calls (drv : Driver) (req : Request) (user : Option Claims) :
    ∀ call ∈ (createProject drv req user).calls, call.writes = some .projects := by
  unfold createProject
  repeat' split
  all_goals try simp only
  all_goals repeat' split
  all_goals simp [StoreCall.writes]

theorem insertDoc_calls (drv : Driver) (c : Collection) (doc : Fields) (status : Nat)
    (done failed : String) :
    ∀ call ∈ (insertDoc drv c doc status done failed).calls, call.writes = some c := by
  unfold insertDoc
  repeat' split
  all_goals simp [StoreCall.writes]

theorem updateById_calls (drv : Driver) (c : Collection) (req : Request)
    (notFound done failed : String) :
    ∀ call ∈ (updateById drv c req notFound done failed).calls, call.writes = some c := by
  unfold updateById
  repeat' split
  all_goals simp [StoreCall.writes]

theorem deleteById_calls (drv : Driver) (c : Collection) (req : Request)
    (notFound done failed : String) :
    ∀ call ∈ (deleteById drv c req notFound done failed).calls, call.writes = some c := by
  unfold deleteById
  repeat' split
  all_goals simp [StoreCall.writes]

theorem replaceSingleton_calls (drv : Driver) (c : Collection) (req : Request)
    (done failed : String) :
    ∀ call ∈ (replaceSingleton drv c req done failed).calls, call.writes = some c := by
  unfold replaceSingleton
  simp only
  repeat' split
  all_goals simp [StoreCall.writes]

theorem submitContact_calls (drv : Driver) (req : Request) :
    ∀ call ∈ (submitContact drv req).calls, call.writes = some .contacts := by
  unfold submitContact
  repeat' split
  all_goals try simp only
  all_goals repeat' split
  all_goals simp [StoreCall.writes]

/-- Every write call a handler body makes goes to the collection `target` names. -/
theorem runHandler_writes (env : AuthEnv) (drv : Driver) (users : List User) (req : Request)
    (user : Option Claims) (h : Handler) :
    ∀ call ∈ (runHandler env drv users req user h).calls, ∀ c, call.writes = some c →
      h.target = some c := by
  intro call hcall c hw
  cases h with
  | register => simp [runHandler] at hcall
  | login => simp [runHandler] at hcall
  | list c0 failed =>
    simp [runHandler, listAll_calls] at hcall; subst hcall; simp [StoreCall.writes] at hw
  | single c0 failed =>
    simp [runHandler, findSingleton_calls] at hcall; subst hcall; simp [StoreCall.writes] at hw
  | findProject =>
    have := findProject_calls drv req call (by simpa [runHandler] using hcall)
    simp [this] at hw
  | createProject =>
    have := createProject_calls drv req user call (by simpa [runHandler] using hcall)
    simpa [Handler.target, this] using hw
  | insert c0 stamp status done failed =>
    have := insertDoc_calls drv c0 _ status done failed call (by simpa [runHandler] using hcall)
    simpa [Handler.target, this] using hw
  | update c0 notFound done failed =>
    have := updateById_calls drv c0 req notFound done failed call
      (by simpa [runHandler] using hcall)
    simpa [Handler.target, this] using hw
  | delete c0 notFound done failed =>
    have := deleteById_calls drv c0 req notFound done failed call
      (by simpa [runHandler] using hcall)
    simpa [Handler.target, this] using hw
  | replace c0 done failed =>
    have := replaceSingleton_calls drv c0 req done failed call
      (by simpa [runHandler] using hcall)
    simpa [Handler.target, this] using hw
  | submitContact =>
    have := submitContact_calls drv req call (by simpa [runHandler] using hcall)
    simpa [Handler.target, this] using hw
  | sendIndex => simp [runHandler] at hcall

/-- The driver calls of a request are those of the handler body, if it ran. -/
theorem runChain_calls (env : AuthEnv) (drv : Driver) (users : List User) (req : Request)
    (h : Handler) (mws : List Middleware) (user : Option Claims) :
    (runChain env drv users req h mws user).calls = []
      ∨ ∃ user', (runChain env drv users req h mws user).calls
          = (runHandler env drv users req user' h).calls := by
  induction mws generalizing user with
  | nil => exact Or.inr ⟨user, rfl⟩
  | cons m rest ih =>
    cases m with
    | verifyToken =>
      simp only [runChain]
      split
      · exact Or.inl rfl
      · exact ih _
    | validateAuth =>
      simp only [runChain]
      split
      · exact Or.inl rfl
      · exact ih _

theorem gate_closed_of_noValidToken (env : AuthEnv) (req : Request) (h : NoValidToken env req) :
    (verifyToken env.lib env.secret env.clock req.authorization).nextCalls = 0 := by
  rcases h with hf | ⟨e, he⟩
  · simp [verifyToken, hf]
  · unfold verifyToken
    split
    · rfl
    · simp [he]

theorem serverRoutes_gated (production : Bool) :
    ∀ r ∈ serverRoutes production, (∃ c ∈ contentCollections, r.handler.target = some c) →
      r.middleware = [.verifyToken] := by
  cases production <;> decide

/-- C9 (amended to the routes of server.js): every route server.js registers
whose handler body writes to one of the content collections has `verifyToken`
as its middleware, and a request without a valid token makes no write to any
content collection on any route of server.js. -/
theorem server_content_writes_gated (production : Bool) (r : Route)
    (hr : r ∈ serverRoutes production) :
    ((∃ env drv users req user, ∃ call ∈ (runHandler env drv users req user r.handler).calls,
        ∃ c ∈ contentCollections, call.writes = some c) → r.middleware = [.verifyToken])
      ∧ ∀ env drv users req, NoValidToken env req →
          (runRoute env drv users r req).NoContentWrite := by
  constructor
  · rintro ⟨env, drv, users, req, user, call, hcall, c, hc, hw⟩
    exact serverRoutes_gated production r hr
      ⟨c, hc, runHandler_writes env drv users req user r.handler call hcall c hw⟩
  · intro env drv users req hno call hcall c hc hw
    by_cases hgated : ∃ c ∈ contentCollections, r.handler.target = some c
    · have hmw := serverRoutes_gated production r hr hgated
      have hclosed := gate_closed_of_noValidToken env req hno
      simp [runRoute, hmw, runChain, hclosed] at hcall
    · rcases runChain_calls env drv users req r.handler r.middleware none with hnil | ⟨u, hu⟩
      · simp [runRoute, hnil] at hcall
      · rw [runRoute, hu] at hcall
        exact hgated ⟨c, hc, runHandler_writes env drv users req u r.handler call hcall c hw⟩

theorem server_content_writes_gated_witness :
    (runRoute (demoEnv 0) demoDriver [] ⟨.post, "/api/projects", [.verifyToken], .createProject⟩
      ⟨some (js "Bearer nope"), [], []⟩).NoContentWrite :=
  (server_content_writes_gated false ⟨.post, "/api/projects", [.verifyToken], .createProject⟩
    (by decide)).2 (demoEnv 0) demoDriver [] ⟨some (js "Bearer nope"), [], []⟩
    (Or.inr ⟨"invalid signature", rfl⟩)

/-- C9 (as stated, refuted): the `POST /` route of routes/Projects.js carries no
middleware, and a request without an Authorization header served by it inserts
into `projects`. -/
theorem projects_router_write_without_token :
    (⟨.post, "/", [], .insert .projects false 201 "Project added" "Failed to add project"⟩
        : Route) ∈ projectsRouterRoutes
      ∧ NoValidToken (demoEnv 0) ⟨none, [], [("title", .str (js "x"))]⟩
      ∧ runRoute (demoEnv 0) demoDriver []
          ⟨.post, "/", [], .insert .projects false 201 "Project added" "Failed to add project"⟩
          ⟨none, [], [("title", .str (js "x"))]⟩
        = ⟨[⟨201, .messageId "Project added" ⟨js "65f0c0ffee0000000000cafe"⟩⟩],
            [.insertOne .projects [("title", .str (js "x"))]], []⟩
      ∧ ¬ (runRoute (demoEnv 0) demoDriver []
          ⟨.post, "/", [], .insert .projects false 201 "Project added" "Failed to add project"⟩
          ⟨none, [], [("title", .str (js "x"))]⟩).NoContentWrite := by
  refine ⟨by decide, Or.inl rfl, by decide, ?_⟩
  intro h
  exact h (.insertOne .projects [("title", .str (js "x"))]) (by decide) .projects (by decide) rfl

theorem serverRoutes_byIdGated (production : Bool) :
    ∀ r ∈ serverRoutes production, r.byIdGated = true := by
  cases production <;> decide

/-- A by-id handler answers by the outcome of building the id and of its one
store operation. -/
theorem runHandler_byId (env : AuthEnv) (drv : Driver) (users : List User) (req : Request)
    (user : Option Claims) (update : Bool) (c : Collection) (notFound done failed : String) :
    runHandler env drv users req user (byIdHandler update c notFound done failed) =
      match drv.objectId req.id with
      | .error _ => ⟨[⟨500, .error failed⟩], [], users⟩
      | .ok oid =>
        match byIdReport drv update c req oid with
        | .error _ => ⟨[⟨500, .error failed⟩], [byIdCall update c req oid], users⟩
        | .ok n =>
          if n = 0 then ⟨[⟨404, .error notFound⟩], [byIdCall update c req oid], users⟩
          else ⟨[⟨200, .message done⟩], [byIdCall update c req oid], users⟩ := by
  cases update
  · simp only [byIdHandler, runHandler, deleteById, byIdReport, byIdCall, Bool.false_eq_true,
      if_false]
    cases drv.objectId req.id with
    | error e => rfl
    | ok oid =>
      simp only
      cases drv.deleteOne c oid with
      | error e => rfl
      | ok n => by_cases hn : n = 0 <;> simp [hn]
  · simp only [byIdHandler, runHandler, updateById, byIdReport, byIdCall, if_true]
    cases drv.objectId req.id with
    | error e => rfl
    | ok oid =>
      simp only
      cases drv.updateOne c oid req.body with
      | error e => rfl
      | ok n => by_cases hn : n = 0 <;> simp [hn]

/-- Behind `verifyToken` alone, a request with a valid token is served by the
handler body. -/
theorem runRoute_gate_open (env : AuthEnv) (drv : Driver) (users : List User) (r : Route)
    (req : Request) (hmw : r.middleware = [.verifyToken]) (hv : ValidToken env req) :
    ∃ user, runRoute env drv users r req = runHandler env drv users req user r.handler := by
  obtain ⟨hf, verified, hver⟩ := hv
  refine ⟨some verified, ?_⟩
  simp [runRoute, hmw, runChain, verifyToken, hf, hver]

theorem byId_route_shape (production : Bool) (r : Route) (hr : r ∈ serverRoutes production)
    (update : Bool) (c : Collection) (notFound done failed : String)
    (hh : r.handler = byIdHandler update c notFound done failed) :
    c ∈ byIdCollections ∧ r.middleware = [.verifyToken] := by
  have hg := serverRoutes_byIdGated production r hr
  unfold Route.byIdGated at hg
  rw [hh] at hg
  cases update <;> simpa [byIdHandler] using hg

/-- C11: on every `PUT /:id` and `DELETE /:id` route of server.js (projects,
skills, experience, education, certificates), once the token gate has passed:
a 404 is sent exactly when the one store operation completes reporting zero
matched or deleted records, the success response when it reports at least
one, and 500 with the fixed message of the route whenever building the id or
the store operation throws, the same response for any two thrown errors; at
most one store call is made. -/
theorem byId_routes_status (production : Bool) (r : Route) (hr : r ∈ serverRoutes production)
    (update : Bool) (c : Collection) (notFound done failed : String)
    (hh : r.handler = byIdHandler update c notFound done failed)
    (env : AuthEnv) (drv : Driver) (users : List User) (req : Request)
    (hv : ValidToken env req) :
    c ∈ byIdCollections
      ∧ ((∃ resp ∈ (runRoute env drv users r req).responses, resp.status = 404)
          ↔ ∃ oid, drv.objectId req.id = .ok oid ∧ byIdReport drv update c req oid = .ok 0)
      ∧ (∀ oid, drv.objectId req.id = .ok oid → byIdReport drv update c req oid = .ok 0 →
          runRoute env drv users r req
            = ⟨[⟨404, .error notFound⟩], [byIdCall update c req oid], users⟩)
      ∧ (∀ oid n, drv.objectId req.id = .ok oid → byIdReport drv update c req oid = .ok n →
          1 ≤ n →
          runRoute env drv users r req
            = ⟨[⟨200, .message done⟩], [byIdCall update c req oid], users⟩)
      ∧ (ByIdThrows drv update c req →
          (runRoute env drv users r req).responses = [⟨500, .error failed⟩])
      ∧ (∀ (env₂ : AuthEnv) (drv₂ : Driver) (users₂ : List User) (req₂ : Request),
          ValidToken env₂ req₂ → ByIdThrows drv update c req → ByIdThrows drv₂ update c req₂ →
          (runRoute env₂ drv₂ users₂ r req₂).responses
            = (runRoute env drv users r req).responses)
      ∧ (runRoute env drv users r req).calls.length ≤ 1 := by
  obtain ⟨hc, hmw⟩ := byId_route_shape production r hr update c notFound done failed hh
  have run_eq : ∀ (env : AuthEnv) (drv : Driver) (users : List User) (req : Request),
      ValidToken env req →
      runRoute env drv users r req =
        match drv.objectId req.id with
        | .error _ => ⟨[⟨500, .error failed⟩], [], users⟩
        | .ok oid =>
          match byIdReport drv update c req oid with
          | .error _ => ⟨[⟨500, .error failed⟩], [byIdCall update c req oid], users⟩
          | .ok n =>
            if n = 0 then ⟨[⟨404, .error notFound⟩], [byIdCall update c req oid], users⟩
            else ⟨[⟨200, .message done⟩], [byIdCall update c req oid], users⟩ := by
    intro env drv users req hv
    obtain ⟨user, hrun⟩ := runRoute_gate_open env drv users r req hmw hv
    rw [hrun, hh, runHandler_byId]
  have throws : ∀ (env : AuthEnv) (drv : Driver) (users : List User) (req : Request),
      ValidToken env req → ByIdThrows drv update c req →
      (runRoute env drv users r req).responses = [⟨500, .error failed⟩] := by
    intro env drv users req hv ht
    rw [run_eq env drv users req hv]
    rcases ht with ⟨e, he⟩ | ⟨oid, e, ho, he⟩
    · simp [he]
    · simp [ho, he]
  refine ⟨hc, ?_, ?_, ?_, throws env drv users req hv, ?_, ?_⟩
  · rw [run_eq env drv users req hv]
    cases ho : drv.objectId req.id with
    | error e => simp
    | ok oid =>
      cases hrep : byIdReport drv update c req oid with
      | error e => simp [hrep]
      | ok n =>
        by_cases hn : n = 0
        · simp [hrep, hn]
        · simp [hrep, hn]
  · intro oid ho hrep
    rw [run_eq env drv users req hv]
    simp [ho, hrep]
  · intro oid n ho hrep hn
    rw [run_eq env drv users req hv]
    have : n ≠ 0 := by omega
    simp [ho, hrep, this]
  · intro env₂ drv₂ users₂ req₂ hv₂ ht ht₂
    rw [throws env drv users req hv ht, throws env₂ drv₂ users₂ req₂ hv₂ ht₂]
  · rw [run_eq env drv users req hv]
    cases ho : drv.objectId req.id with
    | error e => simp
    | ok oid =>
      cases hrep : byIdReport drv update c req oid with
      | error e => simp [hrep]
      | ok n => by_cases hn : n = 0 <;> simp [hrep, hn]

theorem byId_routes_status_witness :
    runRoute (demoEnv 10) demoDriver []
        ⟨.put, "/api/skills/:id", [.verifyToken],
          .update .skills "Skill not found" "Skill updated successfully"
            "Failed to update skill"⟩ demoRequest
      = ⟨[⟨200, .message "Skill updated successfully"⟩],
          [byIdCall true .skills demoRequest ⟨js "65f0c0ffee0000000000cafe"⟩], []⟩ :=
  (byId_routes_status false
    ⟨.put, "/api/skills/:id", [.verifyToken],
      .update .skills "Skill not found" "Skill updated successfully" "Failed to update skill"⟩
    (by decide) true .skills "Skill not found" "Skill updated successfully"
    "Failed to update skill" rfl (demoEnv 10) demoDriver [] demoRequest
    ⟨rfl, ⟨⟨js "65f0c0ffee0000000000beef", 0, 7200⟩, rfl⟩⟩).2.2.2.1
      ⟨js "65f0c0ffee0000000000cafe"⟩ 1 rfl rfl (by decide)

end Portfolio
